import Mathlib

/-!
A verification development for the garment-manufacturing ERP's two
structured subsystems: the DSO (Digital Standard Operation) document
version/approval lifecycle (`app/models/dso.py`, `app/api/dso.py`,
`app/models/audit.py`) and the QC aggregate-reporting service
(`app/services/qc_analytics.py`, `app/models/qc.py`).

The embedding is shallow: ORM rows become Lean structures, request
handlers become pure functions threading state explicitly, HTTP-400
responses become `Except.error`, and the database's row sets become
lists passed as arguments.  Timestamps are integers.  Python's float
arithmetic is idealised as exact rational arithmetic (`ℚ`); Python's
banker's rounding `round(x, n)` is modelled by `pyRound` below.  All
numeric constants appearing in the proved statements are exactly
representable, so the idealisation is faithful on them.
-/

namespace GP

/-- Model of Python's built-in `round(x, ndigits)` on exact rationals:
scale by `10^ndigits`, round half to even, scale back. -/
def pyRound (ndigits : Nat) (x : ℚ) : ℚ :=
  let scaled : ℚ := x * (10 : ℚ) ^ ndigits
  let n : ℤ := ⌊scaled⌋
  let r : ℤ :=
    if scaled - (n : ℚ) < 1 / 2 then n
    else if 1 / 2 < scaled - (n : ℚ) then n + 1
    else if n % 2 = 0 then n else n + 1
  (r : ℚ) / (10 : ℚ) ^ ndigits

/-! ## DSO document rows (`app/models/dso.py`)

Field-for-field translation of the `dso` table's columns that the
lifecycle logic touches.  SQLAlchemy leaves unset constructor kwargs as
`None`; string columns are therefore `Option String`.  The structure
defaults mirror the column defaults (`version=1`, `status='draft'`,
everything else `NULL`). -/

structure DSO where
  id : Option ℤ := none
  order_id : ℤ
  version : ℤ := 1
  jenis : Option String := none
  bahan : Option String := none
  warna : Option String := none
  sablon : Option String := none
  posisi : Option String := none
  acc_1 : Option String := none
  acc_2 : Option String := none
  acc_3 : Option String := none
  acc_4 : Option String := none
  acc_5 : Option String := none
  kancing : Option String := none
  saku : Option String := none
  resleting : Option String := none
  model_badan_bawah : Option String := none
  gambar_depan_url : Option String := none
  catatan_customer_1 : Option String := none
  catatan_customer_2 : Option String := none
  catatan_customer_3 : Option String := none
  catatan_customer_4 : Option String := none
  catatan_customer_5 : Option String := none
  catatan_customer_6 : Option String := none
  label : Option String := none
  gramasi : Option String := none
  jahitan : Option String := none
  benang : Option String := none
  label_merk : Option String := none
  label_size : Option String := none
  label_care : Option String := none
  hangtag : Option String := none
  packaging : Option String := none
  catatan_produksi : Option String := none
  catatan_customer : Option String := none
  status : String := "draft"
  approved_by : Option ℤ := none
  approved_at : Option ℤ := none
  rejection_reason : Option String := none
  created_by : Option ℤ := none
deriving DecidableEq

/-- Method `DSO.create_new_version` (`app/models/dso.py` lines 89-114): builds a
new row passing exactly the source's carry-over kwargs plus
`version=self.version + 1` and `status='draft'`, then mutates the
source's status to `'superseded'`.  Returned as
`(new_dso, mutated source)`. -/
def DSO.create_new_version (self : DSO) : DSO × DSO :=
  let new_dso : DSO :=
    { order_id := self.order_id
      version := self.version + 1
      bahan := self.bahan
      warna := self.warna
      gramasi := self.gramasi
      jahitan := self.jahitan
      benang := self.benang
      kancing := self.kancing
      resleting := self.resleting
      label_merk := self.label_merk
      label_size := self.label_size
      label_care := self.label_care
      hangtag := self.hangtag
      packaging := self.packaging
      catatan_produksi := self.catatan_produksi
      catatan_customer := self.catatan_customer
      status := "draft" }
  (new_dso, { self with status := "superseded" })

/-- Handler `create_dso_new_version` (`app/api/dso.py` lines 391-405):
calls the model method on the fetched row, stamps `created_by`, and
inserts the new row.  Pure rendering: `(inserted new row, updated source row)`. -/
def create_dso_new_version (dso : DSO) (current_user : ℤ) : DSO × DSO :=
  let r := dso.create_new_version
  ({ r.1 with created_by := some current_user }, r.2)

/-- The order columns the DSO handlers touch (`app/models/order.py`). -/
structure ErpOrder where
  status : String
  dso_status : String
deriving DecidableEq

/-- JSON body of a `PUT /dso/<id>` request.  `none` = key absent,
`some none` = key present with JSON `null`, `some (some v)` = key
present with string value `v` (mirroring `field in data` /
`data[field]`).  The `size_chart_dewasa` / `size_chart_anak` parts of
the handler mutate separate child-table rows
(`DSOSizeChartDewasa`/`DSOSizeChartAnak`), not the `dso` row modelled
here, and are outside every claim's footprint. -/
structure UpdatePayload where
  jenis : Option (Option String) := none
  bahan : Option (Option String) := none
  warna : Option (Option String) := none
  sablon : Option (Option String) := none
  posisi : Option (Option String) := none
  acc_1 : Option (Option String) := none
  acc_2 : Option (Option String) := none
  acc_3 : Option (Option String) := none
  acc_4 : Option (Option String) := none
  acc_5 : Option (Option String) := none
  kancing : Option (Option String) := none
  saku : Option (Option String) := none
  resleting : Option (Option String) := none
  model_badan_bawah : Option (Option String) := none
  catatan_customer_1 : Option (Option String) := none
  catatan_customer_2 : Option (Option String) := none
  catatan_customer_3 : Option (Option String) := none
  catatan_customer_4 : Option (Option String) := none
  catatan_customer_5 : Option (Option String) := none
  catatan_customer_6 : Option (Option String) := none
  label : Option (Option String) := none
  gambar_depan_url : Option (Option String) := none
  gramasi : Option (Option String) := none
  jahitan : Option (Option String) := none
  benang : Option (Option String) := none
  label_merk : Option (Option String) := none
  label_size : Option (Option String) := none
  label_care : Option (Option String) := none
  hangtag : Option (Option String) := none
  packaging : Option (Option String) := none
  catatan_produksi : Option (Option String) := none
  catatan_customer : Option (Option String) := none
  status : Option (Option String) := none
deriving DecidableEq

/-- Handler `update_dso` (`app/api/dso.py` lines 232-302).  Guard: only
`draft`/`rejected` rows may be edited, otherwise HTTP 400.  Then the
`for field in fields: if field in data: setattr(dso, field, data[field])`
loop over the 32 template/legacy fields, then the implicit-publish
branch `if data.get('status') == 'published'` which sets the row's
status to `'approved'` and the order's `dso_status` to `'created'`. -/
def update_dso (dso : DSO) (order : ErpOrder) (data : UpdatePayload) :
    Except String (DSO × ErpOrder) :=
  if ¬(dso.status = "draft" ∨ dso.status = "rejected") then
    .error "Cannot edit approved/superseded DSO. Create a change request."
  else
    let dso1 : DSO :=
      { dso with
        jenis := data.jenis.getD dso.jenis
        bahan := data.bahan.getD dso.bahan
        warna := data.warna.getD dso.warna
        sablon := data.sablon.getD dso.sablon
        posisi := data.posisi.getD dso.posisi
        acc_1 := data.acc_1.getD dso.acc_1
        acc_2 := data.acc_2.getD dso.acc_2
        acc_3 := data.acc_3.getD dso.acc_3
        acc_4 := data.acc_4.getD dso.acc_4
        acc_5 := data.acc_5.getD dso.acc_5
        kancing := data.kancing.getD dso.kancing
        saku := data.saku.getD dso.saku
        resleting := data.resleting.getD dso.resleting
        model_badan_bawah := data.model_badan_bawah.getD dso.model_badan_bawah
        catatan_customer_1 := data.catatan_customer_1.getD dso.catatan_customer_1
        catatan_customer_2 := data.catatan_customer_2.getD dso.catatan_customer_2
        catatan_customer_3 := data.catatan_customer_3.getD dso.catatan_customer_3
        catatan_customer_4 := data.catatan_customer_4.getD dso.catatan_customer_4
        catatan_customer_5 := data.catatan_customer_5.getD dso.catatan_customer_5
        catatan_customer_6 := data.catatan_customer_6.getD dso.catatan_customer_6
        label := data.label.getD dso.label
        gambar_depan_url := data.gambar_depan_url.getD dso.gambar_depan_url
        gramasi := data.gramasi.getD dso.gramasi
        jahitan := data.jahitan.getD dso.jahitan
        benang := data.benang.getD dso.benang
        label_merk := data.label_merk.getD dso.label_merk
        label_size := data.label_size.getD dso.label_size
        label_care := data.label_care.getD dso.label_care
        hangtag := data.hangtag.getD dso.hangtag
        packaging := data.packaging.getD dso.packaging
        catatan_produksi := data.catatan_produksi.getD dso.catatan_produksi
        catatan_customer := data.catatan_customer.getD dso.catatan_customer }
    if data.status.join = some "published" then
      .ok ({ dso1 with status := "approved" }, { order with dso_status := "created" })
    else
      .ok (dso1, order)

/-! ## Change requests (`app/models/audit.py`, `app/api/dso.py`) -/

/-- Enum `ChangeRequestStatus` (`app/models/audit.py` lines 7-12). -/
inductive ChangeRequestStatus where
  | PENDING
  | APPROVED
  | REJECTED
  | IMPLEMENTED
deriving DecidableEq

/-- The `change_request` table's lifecycle-relevant columns
(`app/models/audit.py` lines 59-98); `status` defaults to `PENDING`. -/
structure ChangeRequest where
  dso_id : Option ℤ
  status : ChangeRequestStatus := .PENDING
  requested_by : ℤ
  approved_by : Option ℤ := none
  approved_at : Option ℤ := none
  approval_notes : Option String := none
  implemented_at : Option ℤ := none
  new_dso_id : Option ℤ := none
deriving DecidableEq

/-- Method `ChangeRequest.approve` (`app/models/audit.py` lines 117-122):
unconditional field assignments, no state check at the model level. -/
def ChangeRequest.approve (self : ChangeRequest) (user_id : ℤ)
    (notes : Option String) (now : ℤ) : ChangeRequest :=
  { self with
    status := .APPROVED
    approved_by := some user_id
    approved_at := some now
    approval_notes := notes }

/-- Method `ChangeRequest.reject` (`app/models/audit.py` lines 124-129). -/
def ChangeRequest.reject (self : ChangeRequest) (user_id : ℤ)
    (notes : Option String) (now : ℤ) : ChangeRequest :=
  { self with
    status := .REJECTED
    approved_by := some user_id
    approved_at := some now
    approval_notes := notes }

/-- Method `ChangeRequest.implement` (`app/models/audit.py` lines 131-135). -/
def ChangeRequest.implement (self : ChangeRequest) (new_dso_id : ℤ)
    (now : ℤ) : ChangeRequest :=
  { self with
    status := .IMPLEMENTED
    implemented_at := some now
    new_dso_id := some new_dso_id }

/-- Handler `create_change_request` (`app/api/dso.py` lines 591-617):
only an `approved` DSO may receive a change request; the new row takes
the default `PENDING` status. -/
def create_change_request (dso : DSO) (requested_by : ℤ) :
    Except String ChangeRequest :=
  if ¬(dso.status = "approved") then
    .error "Can only create change request for approved DSO"
  else
    .ok { dso_id := dso.id, requested_by := requested_by }

/-- Handler `approve_change_request` (`app/api/dso.py` lines 620-649):
reject non-pending requests with HTTP 400; otherwise approve, create a
new DSO version from the request's DSO (flush assigns its id), and mark
the request implemented with that id.  Returns
`(final request, inserted new DSO row, superseded source row)`. -/
def approve_change_request (cr : ChangeRequest) (dso : DSO)
    (current_user : ℤ) (notes : Option String) (now : ℤ) (new_dso_id : ℤ) :
    Except String (ChangeRequest × DSO × DSO) :=
  if ¬(cr.status = .PENDING) then
    .error "Change request is not pending"
  else
    let cr1 := cr.approve current_user notes now
    let r := dso.create_new_version
    let new_dso : DSO := { r.1 with created_by := some current_user, id := some new_dso_id }
    let cr2 := cr1.implement new_dso_id now
    .ok (cr2, new_dso, r.2)

/-- Handler `reject_change_request` (`app/api/dso.py` lines 652-667). -/
def reject_change_request (cr : ChangeRequest) (current_user : ℤ)
    (notes : Option String) (now : ℤ) : Except String ChangeRequest :=
  if ¬(cr.status = .PENDING) then
    .error "Change request is not pending"
  else
    .ok (cr.reject current_user notes now)

/-- The change-request transitions reachable through the API surface:
the two mutating handlers, each applied successfully. -/
inductive ChangeRequestStep : ChangeRequest → ChangeRequest → Prop where
  | approve {cr dso u notes now newId cr' nd sd} :
      approve_change_request cr dso u notes now newId = .ok (cr', nd, sd) →
      ChangeRequestStep cr cr'
  | reject {cr u notes now cr'} :
      reject_change_request cr u notes now = .ok cr' →
      ChangeRequestStep cr cr'

/-! ## QC sheets, defects and analytics
(`app/models/qc.py`, `app/services/qc_analytics.py`) -/

/-- One element of a sheet's `checklist_json` array; the analytics SQL
reads `qty_checked` and `qty_ng` with `COALESCE(..., '0')`. -/
structure ChecklistItem where
  qty_checked : ℤ := 0
  qty_ng : ℤ := 0
deriving DecidableEq

/-- The `qc_sheet` columns the analytics touch (`app/models/qc.py`
lines 23-59); `checklist_json` is a nullable JSON array. -/
structure QCSheet where
  created_at : ℤ
  qty_inspected : ℤ := 0
  qty_passed : ℤ := 0
  qty_failed : ℤ := 0
  checklist_json : Option (List ChecklistItem) := none
deriving DecidableEq

/-- Method `QCSheet.get_pass_rate` (`app/models/qc.py` lines 83-87). -/
def QCSheet.get_pass_rate (self : QCSheet) : ℚ :=
  if self.qty_inspected = 0 then 0
  else pyRound 2 ((self.qty_passed : ℚ) / (self.qty_inspected : ℚ) * 100)

/-- The `defect_log` columns the analytics touch (`app/models/qc.py`
lines 151-188).  `qty_defect` defaults to 1 but comes straight from the
request payload (`data.get('qty_defect', 1)`), so any integer is
storable. -/
structure DefectLog where
  created_at : ℤ
  defect_type : Option String := none
  qty_defect : ℤ := 1
  status : String := "open"
deriving DecidableEq

/-- The rows `calculate_fpy` aggregates: the SQL filter is
`created_at >= start_date AND created_at <= end_date` — both bounds
inclusive. -/
def fpyWindowRows (sheets : List QCSheet) (start_date end_date : ℤ) :
    List QCSheet :=
  sheets.filter fun q => decide (start_date ≤ q.created_at ∧ q.created_at ≤ end_date)

/-- Result shape of `calculate_fpy` (its returned dict's numeric fields). -/
structure FpyResult where
  fpy_percentage : ℚ
  total_inspected : ℤ
  total_passed : ℤ
  total_failed : ℤ
deriving DecidableEq

/-- Function `QCAnalyticsService.calculate_fpy` (`app/services/qc_analytics.py`
lines 25-69): sum `qty_inspected`/`qty_passed`/`qty_failed` over the
window; if the summed `qty_inspected` is zero return the explicit
`100.0` policy dict, else `round(passed/inspected*100, 2)`. -/
def calculate_fpy (sheets : List QCSheet) (start_date end_date : ℤ) :
    FpyResult :=
  let rows := fpyWindowRows sheets start_date end_date
  let total_inspected : ℤ := (rows.map fun q => q.qty_inspected).sum
  let total_passed : ℤ := (rows.map fun q => q.qty_passed).sum
  let total_failed : ℤ := (rows.map fun q => q.qty_failed).sum
  if total_inspected = 0 then
    { fpy_percentage := 100, total_inspected := 0, total_passed := 0, total_failed := 0 }
  else
    { fpy_percentage := pyRound 2 ((total_passed : ℚ) / (total_inspected : ℚ) * 100)
      total_inspected := total_inspected
      total_passed := total_passed
      total_failed := total_failed }

/-- Spec-reading comparison definition: it follows the specification's words rather than the code, for use against
`calculate_fpy`: the spec describes the FPY window as the half-open
interval `[start, end)`, i.e. a record stamped exactly at `end_date`
is outside the window.  Identical to `calculate_fpy` except for the
strict upper bound. -/
def calculate_fpy_halfOpenSpec (sheets : List QCSheet)
    (start_date end_date : ℤ) : FpyResult :=
  let rows := sheets.filter fun q =>
    decide (start_date ≤ q.created_at ∧ q.created_at < end_date)
  let total_inspected : ℤ := (rows.map fun q => q.qty_inspected).sum
  let total_passed : ℤ := (rows.map fun q => q.qty_passed).sum
  let total_failed : ℤ := (rows.map fun q => q.qty_failed).sum
  if total_inspected = 0 then
    { fpy_percentage := 100, total_inspected := 0, total_passed := 0, total_failed := 0 }
  else
    { fpy_percentage := pyRound 2 ((total_passed : ℚ) / (total_inspected : ℚ) * 100)
      total_inspected := total_inspected
      total_passed := total_passed
      total_failed := total_failed }

/-- The `WEIGHTS` class attribute (`app/services/qc_analytics.py`
lines 18-23). -/
def WEIGHTS_pass_rate : ℚ := 0.4

/-- Weight `WEIGHTS['ng_rate']`. -/
def WEIGHTS_ng_rate : ℚ := 0.3

/-- Weight `WEIGHTS['resolution_rate']`. -/
def WEIGHTS_resolution_rate : ℚ := 0.2

/-- Weight `WEIGHTS['consistency']`. -/
def WEIGHTS_consistency : ℚ := 0.1

/-- The flattened checklist items of the sheets in the window whose
`checklist_json IS NOT NULL` — the `json_array_elements` unnest in the
NG-rate SQL of `calculate_quality_score` (lines 184-198). -/
def checklistItemsIn (sheets : List QCSheet) (start_date end_date : ℤ) :
    List ChecklistItem :=
  ((sheets.filter fun q =>
      decide (start_date ≤ q.created_at ∧ q.created_at ≤ end_date ∧
        ¬(q.checklist_json = none))).map
    fun q => q.checklist_json.getD []).flatten

/-- Aggregate `SUM(qty_checked)` over the unnested checklist items. -/
def totalCheckedIn (sheets : List QCSheet) (start_date end_date : ℤ) : ℤ :=
  ((checklistItemsIn sheets start_date end_date).map fun i => i.qty_checked).sum

/-- Aggregate `SUM(qty_ng)` over the unnested checklist items. -/
def totalNgIn (sheets : List QCSheet) (start_date end_date : ℤ) : ℤ :=
  ((checklistItemsIn sheets start_date end_date).map fun i => i.qty_ng).sum

/-- Rate `ng_rate = (total_ng / total_checked * 100) if total_checked > 0 else 0`
(`calculate_quality_score`, line 203). -/
def ngRateIn (sheets : List QCSheet) (start_date end_date : ℤ) : ℚ :=
  if 0 < totalCheckedIn sheets start_date end_date then
    (totalNgIn sheets start_date end_date : ℚ) /
      (totalCheckedIn sheets start_date end_date : ℚ) * 100
  else 0

/-- The defect rows of the window, filter
`created_at >= start_date AND created_at <= end_date` (lines 217-220). -/
def defectsWindow (defects : List DefectLog) (start_date end_date : ℤ) :
    List DefectLog :=
  defects.filter fun d => decide (start_date ≤ d.created_at ∧ d.created_at ≤ end_date)

/-- Score `resolution_score = resolved/total*100 if total > 0 else 100`
(`calculate_quality_score`, lines 209-225): `total` counts the window's
defect rows, `resolved` those with status `resolved` or `closed`. -/
def resolutionScoreIn (defects : List DefectLog) (start_date end_date : ℤ) : ℚ :=
  let total_defects := (defectsWindow defects start_date end_date).length
  let resolved_defects :=
    ((defectsWindow defects start_date end_date).filter fun d =>
      decide (d.status = "resolved" ∨ d.status = "closed")).length
  if 0 < total_defects then
    (resolved_defects : ℚ) / (total_defects : ℚ) * 100
  else 100

/-- The `components` dict of `calculate_quality_score`. -/
structure QualityComponents where
  fpy_score : ℚ
  ng_score : ℚ
  resolution_score : ℚ
  consistency_score : ℚ
deriving DecidableEq

/-- Result shape of `calculate_quality_score`. -/
structure QualityScoreResult where
  quality_score : ℚ
  grade : String
  grade_status : String
  components : QualityComponents
deriving DecidableEq

/-- Function `QCAnalyticsService.calculate_quality_score`
(`app/services/qc_analytics.py` lines 168-270): weighted combination of
the FPY score, the inverted NG score `max(0, 100 - ng_rate * 10)`, the
defect-resolution score and the hardcoded consistency constant 85,
rounded to one decimal, then mapped to a letter grade by fixed
thresholds. -/
def calculate_quality_score (sheets : List QCSheet) (defects : List DefectLog)
    (start_date end_date : ℤ) : QualityScoreResult :=
  let fpy_score := (calculate_fpy sheets start_date end_date).fpy_percentage
  let ng_rate := ngRateIn sheets start_date end_date
  let ng_score : ℚ := max 0 (100 - ng_rate * 10)
  let resolution_score := resolutionScoreIn defects start_date end_date
  let consistency_score : ℚ := 85
  let quality_score :=
    pyRound 1 (fpy_score * WEIGHTS_pass_rate + ng_score * WEIGHTS_ng_rate +
      resolution_score * WEIGHTS_resolution_rate +
      consistency_score * WEIGHTS_consistency)
  let gs : String × String :=
    if 90 ≤ quality_score then ("A", "Excellent")
    else if 80 ≤ quality_score then ("B", "Good")
    else if 70 ≤ quality_score then ("C", "Average")
    else if 60 ≤ quality_score then ("D", "Below Average")
    else ("F", "Critical")
  { quality_score := quality_score
    grade := gs.1
    grade_status := gs.2
    components :=
      { fpy_score := pyRound 1 fpy_score
        ng_score := pyRound 1 ng_score
        resolution_score := pyRound 1 resolution_score
        consistency_score := pyRound 1 consistency_score } }

/-- The ternary trend expression of `generate_summary_report`
(lines 429 and 433): `'up' if change > 0 else 'down' if change < 0 else 'stable'`. -/
def trendLabel (change : ℚ) : String :=
  if 0 < change then "up" else if change < 0 then "down" else "stable"

/-- The period-over-period summary block of `generate_summary_report`. -/
structure SummaryTrend where
  fpy_change : ℚ
  fpy_trend : String
  score_change : ℚ
  score_trend : String
deriving DecidableEq

/-- The trend-labelling portion of
`QCAnalyticsService.generate_summary_report`
(`app/services/qc_analytics.py` lines 392-433), parameterised by the
window boundaries the function derives from the clock (`prev_start`,
`start_date = prev_end`, `end_date = now`): FPY and quality score are
computed for the current and the immediately preceding window, deltas
are rounded (2 resp. 1 decimals) and labelled by the ternary trend
expressions. -/
def generate_summary_report_trends (sheets : List QCSheet)
    (defects : List DefectLog) (prev_start start_date end_date : ℤ) :
    SummaryTrend :=
  let current_fpy := calculate_fpy sheets start_date end_date
  let current_score := calculate_quality_score sheets defects start_date end_date
  let prev_fpy := calculate_fpy sheets prev_start start_date
  let prev_score := calculate_quality_score sheets defects prev_start start_date
  let fpy_change := pyRound 2 (current_fpy.fpy_percentage - prev_fpy.fpy_percentage)
  let score_change := pyRound 1 (current_score.quality_score - prev_score.quality_score)
  { fpy_change := fpy_change
    fpy_trend := trendLabel fpy_change
    score_change := score_change
    score_trend := trendLabel score_change }

/-- Descending order on per-type defect totals: the
`ORDER BY SUM(qty_defect) DESC` of `get_defect_pareto`. -/
def descSnd (a b : String × ℤ) : Prop := b.2 ≤ a.2

instance : DecidableRel descSnd := fun a b => inferInstanceAs (Decidable (b.2 ≤ a.2))

instance : IsTotal (String × ℤ) descSnd := ⟨fun a b => le_total b.2 a.2⟩

instance : IsTrans (String × ℤ) descSnd := ⟨fun _ _ _ h1 h2 => le_trans h2 h1⟩

/-- The `GROUP BY defect_type` totals of `get_defect_pareto`
(lines 550-560) before ordering: rows with `created_at >= start_date`
and non-null `defect_type`, grouped by type, summing `qty_defect`.
(SQL leaves the order of groups unspecified; ordering happens next.) -/
def defectTypeTotals (defects : List DefectLog) (start_date : ℤ) :
    List (String × ℤ) :=
  let rows := defects.filter fun d =>
    decide (start_date ≤ d.created_at ∧ ¬(d.defect_type = none))
  let types := (rows.filterMap fun d => d.defect_type).eraseDups
  types.map fun t =>
    (t, ((rows.filter fun d => decide (d.defect_type = some t)).map
      fun d => d.qty_defect).sum)

/-- One entry of `get_defect_pareto`'s `pareto_data`. -/
structure ParetoRow where
  type : String
  count : ℤ
  cumulative_percentage : ℚ
deriving DecidableEq

/-- Result shape of `get_defect_pareto`. -/
structure ParetoResult where
  total_defects : ℤ
  pareto_data : List ParetoRow
deriving DecidableEq

/-- The accumulation loop of `get_defect_pareto` (lines 562-575):
running `cumulative_qty`, each row's
`cumulative_pct = round(cumulative_qty / total_defects * 100, 1)` when
`total_defects > 0`, else `0`. -/
def paretoRowsAux (groups : List (String × ℤ)) (total_defects : ℤ)
    (cumulative_qty : ℤ) : List ParetoRow :=
  match groups with
  | [] => []
  | g :: gs =>
    let cum := cumulative_qty + g.2
    let pct : ℚ :=
      if 0 < total_defects then
        pyRound 1 ((cum : ℚ) / (total_defects : ℚ) * 100)
      else 0
    { type := g.1, count := g.2, cumulative_percentage := pct } ::
      paretoRowsAux gs total_defects cum

/-- Function `QCAnalyticsService.get_defect_pareto` (`app/services/qc_analytics.py`
lines 541-581): group by type, order descending by summed quantity,
`LIMIT 10`; `total_defects` is the sum over those (at most 10) returned
groups, and the cumulative percentages are computed against it. -/
def get_defect_pareto (defects : List DefectLog) (start_date : ℤ) :
    ParetoResult :=
  let results := (List.insertionSort descSnd (defectTypeTotals defects start_date)).take 10
  let total_defects := (results.map fun r => r.2).sum
  { total_defects := total_defects
    pareto_data := paretoRowsAux results total_defects 0 }

/-! ## Concrete sample data used by counterexamples and witnesses -/

/-- An approved DSO with one carry-over field set, as version 1. -/
def dsoApproved : DSO :=
  { order_id := 1, version := 1, bahan := some "Cotton", status := "approved" }

/-- A draft DSO. -/
def dsoDraft : DSO := { order_id := 1, version := 1, status := "draft" }

/-- An order row in its pre-publication state. -/
def orderSample : ErpOrder := { status := "confirmed", dso_status := "draft" }

/-- A `PUT /dso/<id>` body carrying only `status: 'published'`. -/
def publishPayload : UpdatePayload := { status := some (some "published") }

/-- A pending change request. -/
def crPending : ChangeRequest := { dso_id := some 1, requested_by := 2 }

/-- A QC sheet stamped exactly at the window's end instant. -/
def boundarySheet : QCSheet :=
  { created_at := 5, qty_inspected := 10, qty_passed := 5, qty_failed := 5 }

/-- Two sheets for the trend counterexample: the earlier window scores
FPY 99.99, the later 100.00 — the smallest representable positive
delta. -/
def trendSheets : List QCSheet :=
  [ { created_at := 3, qty_inspected := 100, qty_passed := 100, qty_failed := 0 },
    { created_at := 1, qty_inspected := 10000, qty_passed := 9999, qty_failed := 1 } ]

/-- A single defect row with quantity zero: a non-empty Pareto input
whose total is zero. -/
def zeroQtyDefect : DefectLog :=
  { created_at := 1, defect_type := some "stain", qty_defect := 0 }

/-- Two defect types with positive quantities for the Pareto witness. -/
def paretoDefects : List DefectLog :=
  [ { created_at := 1, defect_type := some "stain", qty_defect := 3 },
    { created_at := 2, defect_type := some "seam", qty_defect := 1 } ]

/-- Eleven defect types with quantities 11 down to 1: the smallest one
falls outside the top-10 cut. -/
def elevenTypeDefects : List DefectLog :=
  [ { created_at := 1, defect_type := some "t01", qty_defect := 11 },
    { created_at := 1, defect_type := some "t02", qty_defect := 10 },
    { created_at := 1, defect_type := some "t03", qty_defect := 9 },
    { created_at := 1, defect_type := some "t04", qty_defect := 8 },
    { created_at := 1, defect_type := some "t05", qty_defect := 7 },
    { created_at := 1, defect_type := some "t06", qty_defect := 6 },
    { created_at := 1, defect_type := some "t07", qty_defect := 5 },
    { created_at := 1, defect_type := some "t08", qty_defect := 4 },
    { created_at := 1, defect_type := some "t09", qty_defect := 3 },
    { created_at := 1, defect_type := some "t10", qty_defect := 2 },
    { created_at := 1, defect_type := some "t11", qty_defect := 1 } ]

/-- A QC sheet with zero inspected units but a nonzero passed count:
the zero-denominator case of `get_pass_rate`. -/
def zeroInspectedSheet : QCSheet :=
  { created_at := 1, qty_inspected := 0, qty_passed := 5, qty_failed := 0 }

/-! ## Helper lemmas -/

/-- When `x` scaled by `10^ndigits` is exactly the integer `m`,
Python's rounding leaves it untouched. -/
theorem pyRound_intMul (ndigits : Nat) (x : ℚ) (m : ℤ)
    (h : x * (10 : ℚ) ^ ndigits = (m : ℚ)) :
    pyRound ndigits x = (m : ℚ) / (10 : ℚ) ^ ndigits := by
  simp only [pyRound, h, Int.floor_intCast, sub_self]
  norm_num

theorem trendLabel_pos {c : ℚ} (h : 0 < c) : trendLabel c = "up" := by
  simp [trendLabel, h]

theorem trendLabel_neg {c : ℚ} (h : c < 0) : trendLabel c = "down" := by
  have h0 : ¬ 0 < c := by linarith
  simp [trendLabel, h, h0]

theorem trendLabel_zero {c : ℚ} (h : c = 0) : trendLabel c = "stable" := by
  simp [trendLabel, h]

/-- The ternary trend expression labels strictly by sign: `"stable"`
appears exactly at delta zero; there is no non-degenerate dead-zone. -/
theorem trendLabel_iff (c : ℚ) :
    (trendLabel c = "up" ↔ 0 < c) ∧ (trendLabel c = "down" ↔ c < 0) ∧
    (trendLabel c = "stable" ↔ c = 0) := by
  rcases lt_trichotomy 0 c with h | h | h
  · rw [trendLabel_pos h]
    refine ⟨⟨fun _ => h, fun _ => rfl⟩, ⟨fun hh => absurd hh (by decide), fun hh => absurd (hh.trans h) (lt_irrefl c)⟩,
      ⟨fun hh => absurd hh (by decide), fun hh => absurd h (by rw [hh]; exact lt_irrefl 0)⟩⟩
  · rw [trendLabel_zero h.symm]
    refine ⟨⟨fun hh => absurd hh (by decide), fun hh => absurd hh (by rw [← h]; exact lt_irrefl 0)⟩,
      ⟨fun hh => absurd hh (by decide), fun hh => absurd hh (by rw [← h]; exact lt_irrefl 0)⟩,
      ⟨fun _ => h.symm, fun _ => rfl⟩⟩
  · rw [trendLabel_neg h]
    refine ⟨⟨fun hh => absurd hh (by decide), fun hh => absurd (h.trans hh) (lt_irrefl c)⟩,
      ⟨fun _ => h, fun _ => rfl⟩,
      ⟨fun hh => absurd hh (by decide), fun hh => absurd h (by rw [hh]; exact lt_irrefl 0)⟩⟩

/-! ## Claim theorems -/

/-- C6: `create_new_version` copies only the carry-over material/spec
fields from the source into the new row and never copies the source's
status, approval metadata, or id: for every source document, regardless
of its status, the new row is created with status `draft`, version
`source.version + 1`, no approval metadata, the 14 carry-over fields
equal to the source's, and every other template field left `NULL`;
the source row's status becomes `superseded`. -/
theorem create_new_version_copies_only_carryover (d : DSO) :
    (d.create_new_version.1.status = "draft") ∧
    (d.create_new_version.1.version = d.version + 1) ∧
    (d.create_new_version.1.id = none) ∧
    (d.create_new_version.1.approved_by = none) ∧
    (d.create_new_version.1.approved_at = none) ∧
    (d.create_new_version.1.rejection_reason = none) ∧
    (d.create_new_version.1.created_by = none) ∧
    (d.create_new_version.1.order_id = d.order_id) ∧
    (d.create_new_version.1.bahan = d.bahan) ∧
    (d.create_new_version.1.warna = d.warna) ∧
    (d.create_new_version.1.gramasi = d.gramasi) ∧
    (d.create_new_version.1.jahitan = d.jahitan) ∧
    (d.create_new_version.1.benang = d.benang) ∧
    (d.create_new_version.1.kancing = d.kancing) ∧
    (d.create_new_version.1.resleting = d.resleting) ∧
    (d.create_new_version.1.label_merk = d.label_merk) ∧
    (d.create_new_version.1.label_size = d.label_size) ∧
    (d.create_new_version.1.label_care = d.label_care) ∧
    (d.create_new_version.1.hangtag = d.hangtag) ∧
    (d.create_new_version.1.packaging = d.packaging) ∧
    (d.create_new_version.1.catatan_produksi = d.catatan_produksi) ∧
    (d.create_new_version.1.catatan_customer = d.catatan_customer) ∧
    (d.create_new_version.1.jenis = none) ∧
    (d.create_new_version.1.sablon = none) ∧
    (d.create_new_version.1.posisi = none) ∧
    (d.create_new_version.1.acc_1 = none) ∧
    (d.create_new_version.1.acc_2 = none) ∧
    (d.create_new_version.1.acc_3 = none) ∧
    (d.create_new_version.1.acc_4 = none) ∧
    (d.create_new_version.1.acc_5 = none) ∧
    (d.create_new_version.1.saku = none) ∧
    (d.create_new_version.1.model_badan_bawah = none) ∧
    (d.create_new_version.1.gambar_depan_url = none) ∧
    (d.create_new_version.1.catatan_customer_1 = none) ∧
    (d.create_new_version.1.catatan_customer_2 = none) ∧
    (d.create_new_version.1.catatan_customer_3 = none) ∧
    (d.create_new_version.1.catatan_customer_4 = none) ∧
    (d.create_new_version.1.catatan_customer_5 = none) ∧
    (d.create_new_version.1.catatan_customer_6 = none) ∧
    (d.create_new_version.1.label = none) ∧
    (d.create_new_version.2.status = "superseded") := by
  repeat' apply And.intro
  all_goals rfl

/-- C1 counterexample: calling the new-version handler twice in
sequence on the same source (version 1, here `dsoApproved`) yields two
new rows BOTH at version 2 — the version numbers are equal, not
strictly increasing, because `create_new_version` computes
`self.version + 1` and the first call does not change the source's
`version`. -/
theorem create_new_version_twice_not_strictly_increasing :
    (create_dso_new_version dsoApproved 7).1.version = 2 ∧
    (create_dso_new_version (create_dso_new_version dsoApproved 7).2 7).1.version = 2 ∧
    ¬((create_dso_new_version dsoApproved 7).1.version <
        (create_dso_new_version (create_dso_new_version dsoApproved 7).2 7).1.version) := by
  decide

/-- C1 (amended): calling `create_dso_new_version` twice in sequence on
the same source inserts two new rows of identical content, each with
version `source.version + 1` (equal, not strictly increasing); the
source's status is `superseded` after the first call, and the second
call leaves the source row entirely unchanged (so the status is set to
`superseded` exactly once, by the first call). -/
theorem create_new_version_twice_versions_equal (d : DSO) (u : ℤ) :
    ((create_dso_new_version d u).1.version = d.version + 1) ∧
    ((create_dso_new_version (create_dso_new_version d u).2 u).1.version = d.version + 1) ∧
    ((create_dso_new_version d u).2.status = "superseded") ∧
    ((create_dso_new_version (create_dso_new_version d u).2 u).2 =
        (create_dso_new_version d u).2) ∧
    ((create_dso_new_version (create_dso_new_version d u).2 u).1 =
        (create_dso_new_version d u).1) := by
  repeat' apply And.intro
  all_goals rfl

/-- C2 counterexample: editing a `draft` DSO with a body containing
`status: 'published'` succeeds and silently flips the document's status
to `approved` — the edit operation does not always leave the status
unchanged. -/
theorem update_dso_publish_flips_status :
    (update_dso dsoDraft orderSample publishPayload).toOption.map
        (fun r => r.1.status) = some "approved" ∧
    dsoDraft.status = "draft" ∧ ¬(("approved" : String) = "draft") := by
  decide

/-- C2 (amended): `update_dso` succeeds exactly when the document's
status is `draft` or `rejected`, and fails with the HTTP-400 error for
every other status (including `approved` and `superseded`); on success
it mutates only the template/legacy text fields — version, id, approval
metadata and the order's own status are untouched — and leaves the
document's status unchanged UNLESS the request body carries
`status: 'published'`, in which case the status becomes `approved`. -/
theorem update_dso_gate_and_frame (dso : DSO) (order : ErpOrder)
    (data : UpdatePayload) :
    ((∃ r, update_dso dso order data = .ok r) ↔
      (dso.status = "draft" ∨ dso.status = "rejected")) ∧
    (∀ d' o', update_dso dso order data = .ok (d', o') →
      (d'.status =
        if data.status.join = some "published" then "approved" else dso.status) ∧
      d'.version = dso.version ∧ d'.id = dso.id ∧
      d'.approved_by = dso.approved_by ∧ d'.approved_at = dso.approved_at ∧
      d'.rejection_reason = dso.rejection_reason ∧
      d'.created_by = dso.created_by ∧ o'.status = order.status) ∧
    (¬(dso.status = "draft" ∨ dso.status = "rejected") →
      update_dso dso order data =
        .error "Cannot edit approved/superseded DSO. Create a change request.") := by
  by_cases hg : dso.status = "draft" ∨ dso.status = "rejected"
  · refine ⟨⟨fun _ => hg, fun _ => ?_⟩, fun d' o' h => ?_, fun hc => absurd hg hc⟩
    · unfold update_dso
      rw [if_neg (not_not_intro hg)]
      by_cases hp : data.status.join = some "published"
      · rw [if_pos hp]; exact ⟨_, rfl⟩
      · rw [if_neg hp]; exact ⟨_, rfl⟩
    · unfold update_dso at h
      rw [if_neg (not_not_intro hg)] at h
      by_cases hp : data.status.join = some "published"
      · rw [if_pos hp] at h
        cases h
        rw [if_pos hp]
        exact ⟨rfl, rfl, rfl, rfl, rfl, rfl, rfl, rfl⟩
      · rw [if_neg hp] at h
        cases h
        rw [if_neg hp]
        exact ⟨rfl, rfl, rfl, rfl, rfl, rfl, rfl, rfl⟩
  · refine ⟨⟨fun he => ?_, fun hc => absurd hc hg⟩, fun d' o' h => ?_, fun _ => ?_⟩
    · obtain ⟨r, hr⟩ := he
      unfold update_dso at hr
      rw [if_pos hg] at hr
      cases hr
    · unfold update_dso at h
      rw [if_pos hg] at h
      cases h
    · unfold update_dso
      rw [if_pos hg]

/-- C2 witness: editing a draft document with an empty body succeeds
without touching anything, while editing an approved document fails
with the HTTP-400 error. -/
theorem update_dso_gate_and_frame_witness :
    update_dso dsoDraft orderSample { } = .ok (dsoDraft, orderSample) ∧
    dsoDraft.status = "draft" ∧
    update_dso dsoApproved orderSample { } =
      .error "Cannot edit approved/superseded DSO. Create a change request." := by
  refine ⟨rfl, rfl, ?_⟩
  exact (update_dso_gate_and_frame dsoApproved orderSample { }).2.2 (by decide)

/-- C3: the change-request lifecycle is one-way across the API surface:
a freshly created request is `PENDING`; every successful mutating call
starts from `PENDING` and lands on `IMPLEMENTED` (the approve handler,
which passes through `APPROVED` via `ChangeRequest.approve` before
`ChangeRequest.implement`) or `REJECTED`; approving or rejecting a
non-pending request fails with the "not pending" error rather than
overwriting; in particular a second approve after an approve fails; and
an `IMPLEMENTED` request can only have arisen by implementing a request
that was first approved. -/
theorem change_request_transitions_one_way :
    (∀ (dso : DSO) (u : ℤ) (cr : ChangeRequest),
        create_change_request dso u = .ok cr → cr.status = .PENDING) ∧
    (∀ cr cr', ChangeRequestStep cr cr' →
        cr.status = .PENDING ∧
        (cr'.status = .IMPLEMENTED ∨ cr'.status = .REJECTED)) ∧
    (∀ (cr : ChangeRequest) (dso : DSO) (u : ℤ) (notes : Option String)
        (now newId : ℤ), ¬(cr.status = .PENDING) →
        approve_change_request cr dso u notes now newId =
          .error "Change request is not pending") ∧
    (∀ (cr : ChangeRequest) (u : ℤ) (notes : Option String) (now : ℤ),
        ¬(cr.status = .PENDING) →
        reject_change_request cr u notes now =
          .error "Change request is not pending") ∧
    (∀ (cr : ChangeRequest) (dso : DSO) (u : ℤ) (notes : Option String)
        (now newId : ℤ) cr' nd sd,
        approve_change_request cr dso u notes now newId = .ok (cr', nd, sd) →
        cr' = (cr.approve u notes now).implement newId now ∧
        (cr.approve u notes now).status = .APPROVED ∧
        ∀ (dso2 : DSO) (u2 : ℤ) (notes2 : Option String) (now2 newId2 : ℤ),
          approve_change_request cr' dso2 u2 notes2 now2 newId2 =
            .error "Change request is not pending") ∧
    (∀ cr cr', ChangeRequestStep cr cr' → cr'.status = .IMPLEMENTED →
        ∃ (u : ℤ) (notes : Option String) (now newId : ℤ),
          cr' = (cr.approve u notes now).implement newId now) := by
  have happrove : ∀ (cr : ChangeRequest) (dso : DSO) (u : ℤ)
      (notes : Option String) (now newId : ℤ) cr' nd sd,
      approve_change_request cr dso u notes now newId = .ok (cr', nd, sd) →
      cr.status = .PENDING ∧ cr' = (cr.approve u notes now).implement newId now := by
    intro cr dso u notes now newId cr' nd sd h
    unfold approve_change_request at h
    by_cases hc : cr.status = .PENDING
    · rw [if_neg (not_not_intro hc)] at h
      cases h
      exact ⟨hc, rfl⟩
    · rw [if_pos hc] at h
      cases h
  have hreject : ∀ (cr : ChangeRequest) (u : ℤ) (notes : Option String)
      (now : ℤ) cr', reject_change_request cr u notes now = .ok cr' →
      cr.status = .PENDING ∧ cr' = cr.reject u notes now := by
    intro cr u notes now cr' h
    unfold reject_change_request at h
    by_cases hc : cr.status = .PENDING
    · rw [if_neg (not_not_intro hc)] at h
      cases h
      exact ⟨hc, rfl⟩
    · rw [if_pos hc] at h
      cases h
  refine ⟨?_, ?_, ?_, ?_, ?_, ?_⟩
  · intro dso u cr h
    unfold create_change_request at h
    by_cases hc : dso.status = "approved"
    · rw [if_neg (not_not_intro hc)] at h
      cases h
      rfl
    · rw [if_pos hc] at h
      cases h
  · intro cr cr' hstep
    cases hstep with
    | approve h =>
        obtain ⟨hp, rfl⟩ := happrove _ _ _ _ _ _ _ _ _ h
        exact ⟨hp, Or.inl rfl⟩
    | reject h =>
        obtain ⟨hp, rfl⟩ := hreject _ _ _ _ _ h
        exact ⟨hp, Or.inr rfl⟩
  · intro cr dso u notes now newId hne
    unfold approve_change_request
    rw [if_pos hne]
  · intro cr u notes now hne
    unfold reject_change_request
    rw [if_pos hne]
  · intro cr dso u notes now newId cr' nd sd h
    obtain ⟨hp, rfl⟩ := happrove _ _ _ _ _ _ _ _ _ h
    refine ⟨rfl, rfl, fun dso2 u2 notes2 now2 newId2 => ?_⟩
    unfold approve_change_request
    rw [if_pos (by intro hc; cases hc)]
  · intro cr cr' hstep himpl
    cases hstep with
    | approve h =>
        obtain ⟨hp, rfl⟩ := happrove _ _ _ _ _ _ _ _ _ h
        exact ⟨_, _, _, _, rfl⟩
    | reject h =>
        obtain ⟨hp, rfl⟩ := hreject _ _ _ _ _ h
        cases himpl

/-- C3 witness: a request that has gone through approve-and-implement
cannot be approved a second time: the handler answers with the
"not pending" error. -/
theorem change_request_transitions_one_way_witness :
    approve_change_request ((crPending.approve 3 none 10).implement 42 10)
      dsoApproved 3 none 11 43 = .error "Change request is not pending" := by
  exact change_request_transitions_one_way.2.2.1 _ dsoApproved 3 none 11 43 (by decide)


/-! ## Pareto helper lemmas -/

theorem paretoRowsAux_map_type_count (gs : List (String × ℤ)) (total cum : ℤ) :
    (paretoRowsAux gs total cum).map (fun r => (r.type, r.count)) = gs := by
  induction gs generalizing cum with
  | nil => rfl
  | cons g gs ih => simp [paretoRowsAux, ih]

theorem paretoRowsAux_map_count (gs : List (String × ℤ)) (total cum : ℤ) :
    (paretoRowsAux gs total cum).map (fun r => r.count) = gs.map (fun g => g.2) := by
  induction gs generalizing cum with
  | nil => rfl
  | cons g gs ih => simp [paretoRowsAux, ih]

theorem paretoRowsAux_length (gs : List (String × ℤ)) (total cum : ℤ) :
    (paretoRowsAux gs total cum).length = gs.length := by
  induction gs generalizing cum with
  | nil => rfl
  | cons g gs ih => simp [paretoRowsAux, ih]

theorem mem_paretoRowsAux (gs : List (String × ℤ)) (total cum : ℤ) {r : ParetoRow}
    (hr : r ∈ paretoRowsAux gs total cum) : (r.type, r.count) ∈ gs := by
  rw [← paretoRowsAux_map_type_count gs total cum]
  exact List.mem_map_of_mem _ hr

theorem paretoRowsAux_pairwise (gs : List (String × ℤ)) (total cum : ℤ)
    (h : List.Pairwise descSnd gs) :
    List.Pairwise (fun a b => b.count ≤ a.count) (paretoRowsAux gs total cum) := by
  induction gs generalizing cum with
  | nil => exact List.Pairwise.nil
  | cons g gs ih =>
    rw [List.pairwise_cons] at h
    refine List.Pairwise.cons ?_ (ih (cum + g.2) h.2)
    intro b hb
    exact h.1 _ (mem_paretoRowsAux gs total (cum + g.2) hb)

/-- The cumulative percentage of the last row of the accumulation loop
is computed from the running total plus all remaining counts. -/
theorem paretoRowsAux_getLast_pct (gs : List (String × ℤ)) (total cum : ℤ)
    (h : ¬(gs = [])) :
    ((paretoRowsAux gs total cum).map fun r => r.cumulative_percentage).getLast? =
      some (if 0 < total then
        pyRound 1 (((cum + (gs.map fun g => g.2).sum : ℤ) : ℚ) / (total : ℚ) * 100)
      else 0) := by
  induction gs generalizing cum with
  | nil => exact absurd rfl h
  | cons g gs ih =>
    cases gs with
    | nil =>
        simp only [paretoRowsAux, List.map_cons, List.map_nil, List.getLast?_singleton,
          List.sum_cons, List.sum_nil]
        rw [add_zero]
    | cons g2 gs2 =>
        have step : paretoRowsAux (g :: g2 :: gs2) total cum =
            { type := g.1, count := g.2,
              cumulative_percentage :=
                if 0 < total then
                  pyRound 1 (((cum + g.2 : ℤ) : ℚ) / (total : ℚ) * 100)
                else 0 } :: paretoRowsAux (g2 :: gs2) total (cum + g.2) := rfl
        have step2 : paretoRowsAux (g2 :: gs2) total (cum + g.2) =
            { type := g2.1, count := g2.2,
              cumulative_percentage :=
                if 0 < total then
                  pyRound 1 (((cum + g.2 + g2.2 : ℤ) : ℚ) / (total : ℚ) * 100)
                else 0 } :: paretoRowsAux gs2 total (cum + g.2 + g2.2) := rfl
        rw [step, List.map_cons, step2, List.map_cons, List.getLast?_cons_cons,
          ← List.map_cons, ← step2]
        rw [ih (cum + g.2) (by simp)]
        simp only [List.map_cons, List.sum_cons, add_assoc]

/-! ## QC claim theorems -/

/-- C10: `get_pass_rate` returns `passed/inspected*100` rounded to two
decimals, and returns `0` — not `100` and (being a total function) not
an exception — when `qty_inspected = 0`. -/
theorem get_pass_rate_zero_and_formula (s : QCSheet) :
    (s.qty_inspected = 0 → s.get_pass_rate = 0 ∧ ¬(s.get_pass_rate = 100)) ∧
    (¬(s.qty_inspected = 0) →
      s.get_pass_rate = pyRound 2 ((s.qty_passed : ℚ) / (s.qty_inspected : ℚ) * 100)) := by
  constructor
  · intro h
    unfold QCSheet.get_pass_rate
    rw [if_pos h]
    norm_num
  · intro h
    unfold QCSheet.get_pass_rate
    rw [if_neg h]

/-- C10 witness: a sheet with zero inspected units (even with a nonzero
passed count) gets pass rate `0`, not `100`. -/
theorem get_pass_rate_zero_and_formula_witness :
    zeroInspectedSheet.get_pass_rate = 0 ∧
    ¬(zeroInspectedSheet.get_pass_rate = 100) := by
  exact (get_pass_rate_zero_and_formula zeroInspectedSheet).1 rfl

/-- C4 counterexample: the code's FPY window is CLOSED at both ends
(`created_at >= start AND created_at <= end`), not the spec's half-open
`[start, end)`: a sheet stamped exactly at the end instant is counted.
With one failing-half sheet at `created_at = end`, the code returns
50.0 while the half-open reading of the claim would see an empty window
and return 100.0. -/
theorem calculate_fpy_includes_end_instant :
    (calculate_fpy [boundarySheet] 0 5).fpy_percentage = 50 ∧
    (calculate_fpy_halfOpenSpec [boundarySheet] 0 5).fpy_percentage = 100 ∧
    ¬((50 : ℚ) = 100) := by
  refine ⟨?_, rfl, by norm_num⟩
  have h1 : (calculate_fpy [boundarySheet] 0 5).fpy_percentage =
      pyRound 2 (((5 : ℤ) : ℚ) / ((10 : ℤ) : ℚ) * 100) := rfl
  rw [h1, pyRound_intMul 2 _ 5000 (by push_cast; norm_num)]
  push_cast
  norm_num

/-- C4 (amended): over the closed window `[start, end]` (both bounds
inclusive, as the SQL filter has it), `calculate_fpy` returns the
explicit all-100 result — not an exception and not 0 — when the summed
`qty_inspected` is zero, and otherwise
`round(sum(qty_passed)/sum(qty_inspected)*100, 2)` together with the
three totals. -/
theorem calculate_fpy_formula (sheets : List QCSheet) (s e : ℤ) :
    (((fpyWindowRows sheets s e).map fun q => q.qty_inspected).sum = 0 →
      calculate_fpy sheets s e =
        { fpy_percentage := 100, total_inspected := 0, total_passed := 0,
          total_failed := 0 }) ∧
    (¬(((fpyWindowRows sheets s e).map fun q => q.qty_inspected).sum = 0) →
      calculate_fpy sheets s e =
        { fpy_percentage := pyRound 2
            (((((fpyWindowRows sheets s e).map fun q => q.qty_passed).sum : ℤ) : ℚ) /
              ((((fpyWindowRows sheets s e).map fun q => q.qty_inspected).sum : ℤ) : ℚ) * 100)
          total_inspected := ((fpyWindowRows sheets s e).map fun q => q.qty_inspected).sum
          total_passed := ((fpyWindowRows sheets s e).map fun q => q.qty_passed).sum
          total_failed := ((fpyWindowRows sheets s e).map fun q => q.qty_failed).sum }) := by
  constructor
  · intro h
    simp only [calculate_fpy]
    rw [if_pos h]
  · intro h
    simp only [calculate_fpy]
    rw [if_neg h]

/-- C4 witness: an empty record set yields FPY exactly 100.0, which is
neither 0 nor an error. -/
theorem calculate_fpy_formula_witness :
    (calculate_fpy [] 0 1).fpy_percentage = 100 ∧
    ¬((calculate_fpy [] 0 1).fpy_percentage = 0) := by
  have h := (calculate_fpy_formula [] 0 1).1 rfl
  rw [h]
  norm_num

/-- C5: the quality score is the fixed-weight combination
`round(0.4*FPY + 0.3*max(0, 100 - ng_rate*10) + 0.2*resolution_rate +
0.1*85, 1)` (so a 10% NG rate saturates the NG component to 0), and for
a window with no inspections and no defects the components are
{100, 100, 100, 85} and the score equals exactly
`0.4*100 + 0.3*100 + 0.2*100 + 0.1*85 = 98.5`. -/
theorem quality_score_weighted_formula :
    (∀ (sheets : List QCSheet) (defects : List DefectLog) (s e : ℤ),
      (calculate_quality_score sheets defects s e).quality_score =
        pyRound 1 ((calculate_fpy sheets s e).fpy_percentage * 0.4 +
          max 0 (100 - ngRateIn sheets s e * 10) * 0.3 +
          resolutionScoreIn defects s e * 0.2 + 85 * 0.1)) ∧
    ((calculate_quality_score [] [] 0 1).components.fpy_score = 100 ∧
      (calculate_quality_score [] [] 0 1).components.ng_score = 100 ∧
      (calculate_quality_score [] [] 0 1).components.resolution_score = 100 ∧
      (calculate_quality_score [] [] 0 1).components.consistency_score = 85) ∧
    ((calculate_quality_score [] [] 0 1).quality_score =
      0.4 * 100 + 0.3 * 100 + 0.2 * 100 + 0.1 * 85) ∧
    ((calculate_quality_score [] [] 0 1).quality_score = 98.5) := by
  have hfpy : (calculate_fpy ([] : List QCSheet) 0 1).fpy_percentage = 100 := rfl
  have hng : ngRateIn [] 0 1 = 0 := rfl
  have hres : resolutionScoreIn [] 0 1 = 100 := rfl
  have hqs : (calculate_quality_score [] [] 0 1).quality_score =
      pyRound 1 ((calculate_fpy ([] : List QCSheet) 0 1).fpy_percentage * 0.4 +
        max 0 (100 - ngRateIn [] 0 1 * 10) * 0.3 +
        resolutionScoreIn [] 0 1 * 0.2 + 85 * 0.1) := rfl
  have hqs985 : (calculate_quality_score [] [] 0 1).quality_score = 98.5 := by
    rw [hqs, hfpy, hng, hres]
    have hmax : max (0 : ℚ) (100 - 0 * 10) = 100 := by norm_num
    rw [hmax]
    rw [pyRound_intMul 1 _ 985 (by norm_num)]
    norm_num
  refine ⟨fun sheets defects s e => rfl, ⟨?_, ?_, ?_, ?_⟩, ?_, hqs985⟩
  · have h : (calculate_quality_score [] [] 0 1).components.fpy_score =
        pyRound 1 (calculate_fpy ([] : List QCSheet) 0 1).fpy_percentage := rfl
    rw [h, hfpy, pyRound_intMul 1 _ 1000 (by norm_num)]
    norm_num
  · have h : (calculate_quality_score [] [] 0 1).components.ng_score =
        pyRound 1 (max 0 (100 - ngRateIn [] 0 1 * 10)) := rfl
    rw [h, hng]
    have hmax : max (0 : ℚ) (100 - 0 * 10) = 100 := by norm_num
    rw [hmax, pyRound_intMul 1 _ 1000 (by norm_num)]
    norm_num
  · have h : (calculate_quality_score [] [] 0 1).components.resolution_score =
        pyRound 1 (resolutionScoreIn [] 0 1) := rfl
    rw [h, hres, pyRound_intMul 1 _ 1000 (by norm_num)]
    norm_num
  · have h : (calculate_quality_score [] [] 0 1).components.consistency_score =
        pyRound 1 85 := rfl
    rw [h, pyRound_intMul 1 _ 850 (by norm_num)]
    norm_num
  · rw [hqs985]
    norm_num

/-- For the concrete two-sheet data set, the summary report's FPY delta
between the current window `[2,4]` (FPY 100.00) and the preceding
window `[0,2]` (FPY 99.99) is exactly 1/100 — the smallest value the
2-decimal FPY quantisation can produce. -/
theorem trendSheets_fpy_change :
    (generate_summary_report_trends trendSheets [] 0 2 4).fpy_change = 1 / 100 := by
  have hchange : (generate_summary_report_trends trendSheets [] 0 2 4).fpy_change =
      pyRound 2 ((calculate_fpy trendSheets 2 4).fpy_percentage -
        (calculate_fpy trendSheets 0 2).fpy_percentage) := rfl
  have hcur : (calculate_fpy trendSheets 2 4).fpy_percentage =
      pyRound 2 (((100 : ℤ) : ℚ) / ((100 : ℤ) : ℚ) * 100) := rfl
  have hprev : (calculate_fpy trendSheets 0 2).fpy_percentage =
      pyRound 2 (((9999 : ℤ) : ℚ) / ((10000 : ℤ) : ℚ) * 100) := rfl
  rw [hchange, hcur, hprev]
  rw [pyRound_intMul 2 (((100 : ℤ) : ℚ) / ((100 : ℤ) : ℚ) * 100) 10000
      (by push_cast; norm_num),
    pyRound_intMul 2 (((9999 : ℤ) : ℚ) / ((10000 : ℤ) : ℚ) * 100) 9999
      (by push_cast; norm_num)]
  rw [pyRound_intMul 2 (((10000 : ℤ) : ℚ) / (10 : ℚ) ^ 2 - ((9999 : ℤ) : ℚ) / (10 : ℚ) ^ 2) 1
      (by push_cast; norm_num)]
  push_cast
  norm_num

/-- C7 counterexample: there is no non-zero dead-zone in the summary
report's trend labels: the smallest achievable non-zero FPY delta
(0.01, produced by the concrete data above) is labelled `'up'`, not
`'stable'` — `'stable'` occurs only at a delta of exactly zero. -/
theorem summary_trend_no_dead_zone :
    (generate_summary_report_trends trendSheets [] 0 2 4).fpy_change = 1 / 100 ∧
    ¬((generate_summary_report_trends trendSheets [] 0 2 4).fpy_change = 0) ∧
    (generate_summary_report_trends trendSheets [] 0 2 4).fpy_trend = "up" ∧
    ¬((generate_summary_report_trends trendSheets [] 0 2 4).fpy_trend = "stable") := by
  have h := trendSheets_fpy_change
  have hlab : (generate_summary_report_trends trendSheets [] 0 2 4).fpy_trend =
      trendLabel ((generate_summary_report_trends trendSheets [] 0 2 4).fpy_change) := rfl
  have hup : (generate_summary_report_trends trendSheets [] 0 2 4).fpy_trend = "up" := by
    rw [hlab, h]
    exact trendLabel_pos (by norm_num)
  refine ⟨h, by rw [h]; norm_num, hup, ?_⟩
  rw [hup]
  decide

/-- C7 (amended): the period-over-period summary report labels each
metric purely by the sign of its rounded delta: `'up'` iff the delta is
positive, `'down'` iff negative, and `'stable'` exactly when the delta
is zero — there is no non-zero dead-zone. -/
theorem summary_trend_label_by_sign (sheets : List QCSheet)
    (defects : List DefectLog) (prev_start start_date end_date : ℤ) :
    ((generate_summary_report_trends sheets defects prev_start start_date end_date).fpy_trend = "up" ↔
      0 < (generate_summary_report_trends sheets defects prev_start start_date end_date).fpy_change) ∧
    ((generate_summary_report_trends sheets defects prev_start start_date end_date).fpy_trend = "down" ↔
      (generate_summary_report_trends sheets defects prev_start start_date end_date).fpy_change < 0) ∧
    ((generate_summary_report_trends sheets defects prev_start start_date end_date).fpy_trend = "stable" ↔
      (generate_summary_report_trends sheets defects prev_start start_date end_date).fpy_change = 0) ∧
    ((generate_summary_report_trends sheets defects prev_start start_date end_date).score_trend = "up" ↔
      0 < (generate_summary_report_trends sheets defects prev_start start_date end_date).score_change) ∧
    ((generate_summary_report_trends sheets defects prev_start start_date end_date).score_trend = "down" ↔
      (generate_summary_report_trends sheets defects prev_start start_date end_date).score_change < 0) ∧
    ((generate_summary_report_trends sheets defects prev_start start_date end_date).score_trend = "stable" ↔
      (generate_summary_report_trends sheets defects prev_start start_date end_date).score_change = 0) := by
  exact ⟨(trendLabel_iff _).1, (trendLabel_iff _).2.1, (trendLabel_iff _).2.2,
    (trendLabel_iff _).1, (trendLabel_iff _).2.1, (trendLabel_iff _).2.2⟩

/-- C7 witness: on the concrete data the positive delta forces the
`'up'` label through the sign characterisation. -/
theorem summary_trend_label_by_sign_witness :
    (generate_summary_report_trends trendSheets [] 0 2 4).fpy_trend = "up" := by
  refine (summary_trend_label_by_sign trendSheets [] 0 2 4).1.mpr ?_
  rw [trendSheets_fpy_change]
  norm_num

/-- C8 counterexample: a non-empty defect set whose quantities sum to
zero (one row with `qty_defect = 0`) produces a non-empty Pareto table
whose last cumulative percentage is 0, not 100. -/
theorem defect_pareto_zero_total_not_100 :
    ¬((get_defect_pareto [zeroQtyDefect] 0).pareto_data = []) ∧
    (((get_defect_pareto [zeroQtyDefect] 0).pareto_data.map
        fun r => r.cumulative_percentage).getLast? = some 0) ∧
    ¬((0 : ℚ) = 100) := by
  refine ⟨by decide, rfl, by norm_num⟩

/-- C8 (amended): whenever the declared `total_defects` of the Pareto
table is positive — in particular for every non-empty input whose
quantities do not all vanish — the table is sorted descending by count
and its last row's cumulative percentage equals exactly 100.0. -/
theorem defect_pareto_last_cumulative_100 (defects : List DefectLog)
    (start_date : ℤ) :
    0 < (get_defect_pareto defects start_date).total_defects →
    (((get_defect_pareto defects start_date).pareto_data.map
        fun r => r.cumulative_percentage).getLast? = some 100 ∧
      List.Pairwise (fun a b => b.count ≤ a.count)
        (get_defect_pareto defects start_date).pareto_data) := by
  intro h
  have htot : (get_defect_pareto defects start_date).total_defects =
      (((List.insertionSort descSnd (defectTypeTotals defects start_date)).take 10).map
        fun r => r.2).sum := rfl
  have hdata : (get_defect_pareto defects start_date).pareto_data =
      paretoRowsAux ((List.insertionSort descSnd (defectTypeTotals defects start_date)).take 10)
        ((((List.insertionSort descSnd (defectTypeTotals defects start_date)).take 10).map
          fun r => r.2).sum) 0 := rfl
  constructor
  · have hne : ¬(((List.insertionSort descSnd (defectTypeTotals defects start_date)).take 10) = []) := by
      intro hnil
      rw [htot, hnil] at h
      simp at h
    rw [hdata, paretoRowsAux_getLast_pct _ _ _ hne]
    rw [htot] at h
    rw [if_pos h]
    have hsum : ((0 + (((List.insertionSort descSnd (defectTypeTotals defects start_date)).take 10).map
        fun g => g.2).sum : ℤ) : ℚ) /
        (((((List.insertionSort descSnd (defectTypeTotals defects start_date)).take 10).map
          fun r => r.2).sum : ℤ) : ℚ) * 100 = 100 := by
      rw [zero_add]
      have hpos : (0 : ℚ) < (((((List.insertionSort descSnd (defectTypeTotals defects start_date)).take 10).map
          fun r => r.2).sum : ℤ) : ℚ) := by exact_mod_cast h
      rw [div_self (ne_of_gt hpos), one_mul]
    rw [hsum, pyRound_intMul 1 _ 1000 (by norm_num)]
    norm_num
  · rw [hdata]
    apply paretoRowsAux_pairwise
    have hs : List.Pairwise descSnd
        (List.insertionSort descSnd (defectTypeTotals defects start_date)) :=
      List.sorted_insertionSort descSnd _
    exact hs.sublist (List.take_sublist _ _)

/-- C8 witness: two defect types with positive quantities — the last
cumulative percentage is exactly 100. -/
theorem defect_pareto_last_cumulative_100_witness :
    0 < (get_defect_pareto paretoDefects 0).total_defects ∧
    (((get_defect_pareto paretoDefects 0).pareto_data.map
        fun r => r.cumulative_percentage).getLast? = some 100) := by
  have h0 : 0 < (get_defect_pareto paretoDefects 0).total_defects := by decide
  exact ⟨h0, (defect_pareto_last_cumulative_100 paretoDefects 0 h0).1⟩

/-- C9: the Pareto endpoint truncates to the top 10 defect types: at
most 10 rows are returned, they are exactly the first 10 groups of the
descending ordering, every excluded group's quantity is bounded by each
displayed row's count, and the declared `total_defects` is the sum over
the DISPLAYED rows only — quantities of types outside the top 10 are
excluded from it entirely. -/
theorem defect_pareto_top10_truncation (defects : List DefectLog)
    (start_date : ℤ) :
    ((get_defect_pareto defects start_date).pareto_data.length ≤ 10) ∧
    ((get_defect_pareto defects start_date).total_defects =
      (((get_defect_pareto defects start_date).pareto_data.map fun r => r.count).sum)) ∧
    (((get_defect_pareto defects start_date).pareto_data.map
        fun r => (r.type, r.count)) =
      (List.insertionSort descSnd (defectTypeTotals defects start_date)).take 10) ∧
    (∀ g ∈ (List.insertionSort descSnd (defectTypeTotals defects start_date)).drop 10,
      ∀ r ∈ (get_defect_pareto defects start_date).pareto_data, g.2 ≤ r.count) := by
  have hdata : (get_defect_pareto defects start_date).pareto_data =
      paretoRowsAux ((List.insertionSort descSnd (defectTypeTotals defects start_date)).take 10)
        ((((List.insertionSort descSnd (defectTypeTotals defects start_date)).take 10).map
          fun r => r.2).sum) 0 := rfl
  refine ⟨?_, ?_, ?_, ?_⟩
  · rw [hdata, paretoRowsAux_length, List.length_take]
    exact min_le_left _ _
  · rw [hdata, paretoRowsAux_map_count]
    rfl
  · rw [hdata, paretoRowsAux_map_type_count]
  · intro g hg r hr
    rw [hdata] at hr
    have hmem := mem_paretoRowsAux _ _ _ hr
    have hs : List.Pairwise descSnd
        (List.insertionSort descSnd (defectTypeTotals defects start_date)) :=
      List.sorted_insertionSort descSnd _
    rw [← List.take_append_drop 10
      (List.insertionSort descSnd (defectTypeTotals defects start_date))] at hs
    exact (List.pairwise_append.mp hs).2.2 _ hmem _ hg

/-- C9 witness: with eleven defect types of quantities 11..1, the table
keeps exactly 10 rows and declares total 65 — the eleventh type's
quantity 1 is excluded, so the declared total differs from the full sum
66 of all logged quantities. -/
theorem defect_pareto_top10_truncation_witness :
    (get_defect_pareto elevenTypeDefects 0).pareto_data.length = 10 ∧
    (get_defect_pareto elevenTypeDefects 0).total_defects = 65 ∧
    ¬((get_defect_pareto elevenTypeDefects 0).total_defects =
      ((elevenTypeDefects.map fun d => d.qty_defect).sum)) := by
  refine ⟨le_antisymm (defect_pareto_top10_truncation elevenTypeDefects 0).1 (by decide),
    by decide, by decide⟩


end GP
